import Mathlib

/-
Verification development for the keyword-SERP-analyzer backend.

The definitions below are a shallow embedding of the JavaScript source:
the credential pool and its status transitions, the upstream-error
classifier, the SERP/metrics merge, the Write/Skip decision rule, the
Apify polling loops, and the POST /api/analyze-serps request handler
(parallel-batch variant).  JavaScript numbers appearing in comparisons
and averages are modelled as rationals; a JS NaN produced by 0/0 is
modelled as `none`; JS `x || d` default-coercion is modelled explicitly.
Theorems about these definitions follow after all definitions.
-/

namespace KeywordSerpAnalyzer

/-- Substring test on strings; models JavaScript `String.prototype.includes`. -/
def strIncludes (s pat : String) : Bool :=
  decide (List.IsInfix pat.data s.data)

/-- ASCII lower-casing of one character, as `toLowerCase` acts on the
ASCII error messages produced by the backend. -/
def asciiLowerChar (c : Char) : Char :=
  if 'A' ≤ c ∧ c ≤ 'Z' then Char.ofNat (c.toNat + 32) else c

/-- ASCII lower-casing of a string; models `String.prototype.toLowerCase`
on the ASCII error messages the backend matches against. -/
def asciiToLower (s : String) : String :=
  String.mk (s.data.map asciiLowerChar)

/-- Credential status, column `api_keys.status`: the three values the
backend reads and writes. -/
inductive KeyStatus where
  | active
  | failed
  | rate_limited
  deriving DecidableEq, Repr, Inhabited

/-- One row of the `api_keys` table, restricted to the fields the
analyze endpoint reads or writes.  Timestamps are modelled as natural
numbers (milliseconds). -/
structure ApiKey where
  id : Nat
  key_name : String
  status : KeyStatus
  last_used : Option Nat
  last_failed : Option Nat
  failure_count : Nat
  deriving DecidableEq, Repr, Inhabited

/-- Rate-limit detection from the parallel-variant error branch:
`errorMessage.includes('rate') || ... ('credit') || ... ('429') || ... ('quota')`
where `errorMessage = error.message.toLowerCase()`. -/
def isRateLimitMessage (msg : String) : Bool :=
  let m := asciiToLower msg
  strIncludes m "rate" || strIncludes m "credit" || strIncludes m "429" ||
    strIncludes m "quota"

/-- Invalid-key detection from the parallel-variant error branch:
`includes('invalid api key') || includes('401') || includes('unauthorized')`. -/
def isInvalidKeyMessage (msg : String) : Bool :=
  let m := asciiToLower msg
  strIncludes m "invalid api key" || strIncludes m "401" ||
    strIncludes m "unauthorized"

/-- Permanent-failure detection from the parallel-variant error branch:
`includes('not found') || includes('404') || includes('actor not found')`. -/
def isPermanentFailureMessage (msg : String) : Bool :=
  let m := asciiToLower msg
  strIncludes m "not found" || strIncludes m "404" ||
    strIncludes m "actor not found"

/-- Status assigned to a credential after a failed use, mirroring the
parallel-variant branch: `rate_limited` when the rate-limit keywords
match, otherwise `failed` (both the invalid-key/permanent branch and the
unclassified branch assign `failed`, as in the source). -/
def classifyFailureStatus (msg : String) : KeyStatus :=
  if isRateLimitMessage msg then KeyStatus.rate_limited
  else if isInvalidKeyMessage msg || isPermanentFailureMessage msg then KeyStatus.failed
  else KeyStatus.failed

/-- Credential update run after a failed use (parallel variant):
`{status: newStatus, last_failed: now, failure_count: (failure_count || 0) + 1}`. -/
def applyFailure (c : ApiKey) (now : Nat) (msg : String) : ApiKey :=
  { c with
    status := classifyFailureStatus msg
    last_failed := some now
    failure_count := c.failure_count + 1 }

/-- Credential update run after a successful use (parallel variant):
`{last_used: now, failure_count: 0, status: 'active', last_failed: null}`. -/
def applySuccess (c : ApiKey) (now : Nat) : ApiKey :=
  { c with
    status := KeyStatus.active
    failure_count := 0
    last_used := some now
    last_failed := none }

/-- Per-keyword decision value. -/
inductive Decision where
  | write
  | skip
  | error
  deriving DecidableEq, Repr, Inhabited

/-- Effective `x` configuration value: `write_skip_config.x || 5`.  The
JS `||` treats an absent field and `0` as falsy, both yielding 5. -/
def effX (o : Option Nat) : Nat :=
  match o with
  | none => 5
  | some n => if n = 0 then 5 else n

/-- Effective `y` configuration value: `write_skip_config.y || 10`. -/
def effY (o : Option Nat) : Nat :=
  match o with
  | none => 10
  | some n => if n = 0 then 10 else n

/-- Effective `z` configuration value: `write_skip_config.z || 35`. -/
def effZ (o : Option ℚ) : ℚ :=
  match o with
  | none => 35
  | some q => if q = 0 then 35 else q

/-- Count of low-authority entries: `das.filter(da => da < z).length`. -/
def lowDACount (das : List ℚ) (z : ℚ) : Nat :=
  (das.filter (fun da => decide (da < z))).length

/-- Write/Skip decision of the parallel variant:
`lowDACount >= x ? 'Write' : 'Skip'`. -/
def decideWriteSkip (das : List ℚ) (x : Nat) (z : ℚ) : Decision :=
  if x ≤ lowDACount das z then Decision.write else Decision.skip

/-- Arithmetic mean `das.reduce((sum, da) => sum + da, 0) / das.length`.
On the empty list the JS expression is `0/0 = NaN`, modelled as `none`. -/
def averageDA (das : List ℚ) : Option ℚ :=
  if das.length = 0 then none else some (das.sum / (das.length : ℚ))

/-- JavaScript `Math.round`: round half toward positive infinity. -/
def jsRound (q : ℚ) : Int :=
  Int.floor (q + 1 / 2)

/-- The stored `average_da` field: `Math.round(averageDA)`, still NaN
(`none`) when the average itself was NaN. -/
def roundedAverageDA (das : List ℚ) : Option Int :=
  (averageDA das).map jsRound

/-- The response mapping `result.average_da || 0`: NaN and absent values
coerce to 0. -/
def jsNumberOrZero (o : Option Int) : Int :=
  o.getD 0

/-- One SERP entry as parsed from the Apify dataset; `position` is
absent (`none`) or numeric. -/
structure SerpItem where
  position : Option Nat
  url : String
  title : String
  description : String
  deriving DecidableEq, Repr, Inhabited

/-- One record of the Moz metrics dataset; the metric fields may be
absent. -/
structure MozRecord where
  domain : String
  domain_authority : Option ℚ
  page_authority : Option ℚ
  spam_score : Option ℚ
  deriving DecidableEq, Repr, Inhabited

/-- One merged per-URL result produced by the combine step. -/
structure CombinedEntry where
  position : Nat
  url : String
  title : String
  description : String
  domain_authority : ℚ
  page_authority : ℚ
  spam_score : ℚ
  deriving DecidableEq, Repr, Inhabited

/-- JavaScript `v || 0` on a possibly-absent metric field. -/
def jsFieldOrZero (o : Option ℚ) : ℚ :=
  o.getD 0

/-- JavaScript `result.position || index + 1`: absent or `0` positions
fall back to `index + 1`. -/
def jsPositionOr (p : Option Nat) (fallback : Nat) : Nat :=
  match p with
  | none => fallback
  | some n => if n = 0 then fallback else n

/-- Index-passing map, modelling JavaScript `Array.prototype.map` with
its `(element, index)` callback starting at a given index. -/
def mapWithIdxFrom {α β : Type} (f : Nat → α → β) : Nat → List α → List β
  | _, [] => []
  | i, a :: rest => f i a :: mapWithIdxFrom f (i + 1) rest

/-- Metric fields of the record found for a URL, or the `{}` fallback:
`metricsData.find(m => m.domain === result.url) || {}`. -/
def lookupMetrics (metricsData : List MozRecord) (url : String) : Option MozRecord :=
  metricsData.find? (fun m => decide (m.domain = url))

/-- One merged entry of the combine step: the SERP entry joined to the
metrics record whose `domain` equals the entry URL exactly, every
metric field defaulting to 0 via `|| 0`. -/
def combineOne (metricsData : List MozRecord) (index : Nat) (result : SerpItem) :
    CombinedEntry :=
  { position := jsPositionOr result.position (index + 1)
    url := result.url
    title := result.title
    description := result.description
    domain_authority :=
      jsFieldOrZero ((lookupMetrics metricsData result.url).bind
        (fun m => m.domain_authority))
    page_authority :=
      jsFieldOrZero ((lookupMetrics metricsData result.url).bind
        (fun m => m.page_authority))
    spam_score :=
      jsFieldOrZero ((lookupMetrics metricsData result.url).bind
        (fun m => m.spam_score)) }

/-- The combine step of `callApifySerpApi`: each SERP entry is joined to
the metrics record whose `domain` equals the entry URL exactly, with all
metric fields defaulting to 0 via `|| 0`. -/
def combineResults (serpResults : List SerpItem) (metricsData : List MozRecord) :
    List CombinedEntry :=
  mapWithIdxFrom (combineOne metricsData) 0 serpResults

/-- Successful outcome of `callApifySerpApi` for one keyword. -/
structure ApifySuccess where
  results : List CombinedEntry
  serp_features : List String
  deriving DecidableEq, Repr, Inhabited

/-- One entry of the batch response, restricted to the fields the claims
are about.  Fields the error branch leaves absent are given their JS
default readings (`[]`, `none`, `0`). -/
structure PerKeywordResult where
  keyword : String
  api_key_used : Option String
  domains : List String
  average_da : Option Int
  low_da_count : Nat
  decision : Decision
  error : Option String
  deriving DecidableEq, Repr, Inhabited

/-- Credential assigned to the keyword at a global index:
`sortedApiKeys[(i + batchIndex) % sortedApiKeys.length]`. -/
def keyAt (keys : List ApiKey) (i : Nat) : ApiKey :=
  keys.getD (i % keys.length) default

/-- Per-keyword processing of the parallel variant.  The remote call is
abstracted as an oracle mapping the keyword index to either a success
payload or an error message. -/
def processKeyword (oracle : Nat → Except String ApifySuccess) (keys : List ApiKey)
    (x y : Nat) (z : ℚ) (i : Nat) (kw : String) : PerKeywordResult :=
  let key := keyAt keys i
  match oracle i with
  | Except.ok serpResult =>
      let das := serpResult.results.map (fun r => r.domain_authority)
      { keyword := kw
        api_key_used := some key.key_name
        domains := (serpResult.results.map (fun r => r.url)).take y
        average_da := roundedAverageDA das
        low_da_count := lowDACount das z
        decision := decideWriteSkip das x z
        error := none }
  | Except.error msg =>
      { keyword := kw
        api_key_used := none
        domains := []
        average_da := none
        low_da_count := 0
        decision := Decision.error
        error := some msg }

/-- Parallel batch width of the endpoint: `const batchSize = 10`. -/
def batchSize : Nat := 10

/-- The batched fan-out loop: keywords are processed in slices of
`batchSize`, each slice mapped with its global index, slices
concatenated in order (`results.push(...batchResults)`). -/
def processInBatches (f : Nat → String → PerKeywordResult) :
    Nat → List String → List PerKeywordResult
  | _, [] => []
  | start, kw :: rest =>
      mapWithIdxFrom f start ((kw :: rest).take batchSize) ++
        processInBatches f (start + batchSize) ((kw :: rest).drop batchSize)
termination_by _ l => l.length
decreasing_by
  simp only [List.length_drop, List.length_cons, batchSize]
  omega

/-- The JS comparator passed to `apiKeys.sort`: active credentials
first, then never-used credentials, then ascending `last_used`. -/
def keyCmp (a b : ApiKey) : Int :=
  if a.status = KeyStatus.active ∧ b.status ≠ KeyStatus.active then -1
  else if a.status ≠ KeyStatus.active ∧ b.status = KeyStatus.active then 1
  else
    match a.last_used, b.last_used with
    | none, none => 0
    | none, some _ => -1
    | some _, none => 1
    | some ta, some tb => (ta : Int) - (tb : Int)

/-- Non-strict order induced by the comparator: `a` may precede `b`. -/
def keyLEProp (a b : ApiKey) : Prop := keyCmp a b ≤ 0

instance : DecidableRel keyLEProp :=
  fun a b => inferInstanceAs (Decidable (keyCmp a b ≤ 0))

instance : IsTotal ApiKey keyLEProp :=
  ⟨by
    intro a b
    obtain ⟨ia, na, sa, lua, lfa, fa⟩ := a
    obtain ⟨ib, nb, sb, lub, lfb, fb⟩ := b
    unfold keyLEProp keyCmp
    rcases sa <;> rcases sb <;> rcases lua with _ | ta <;> rcases lub with _ | tb <;>
      simp <;> omega⟩

instance : IsTrans ApiKey keyLEProp :=
  ⟨by
    intro a b c hab hbc
    obtain ⟨ia, na, sa, lua, lfa, fa⟩ := a
    obtain ⟨ib, nb, sb, lub, lfb, fb⟩ := b
    obtain ⟨ic, nc, sc, luc, lfc, fc⟩ := c
    unfold keyLEProp keyCmp at hab hbc ⊢
    rcases sa <;> rcases sb <;> rcases sc <;>
      rcases lua with _ | ta <;> rcases lub with _ | tb <;> rcases luc with _ | tc <;>
      simp_all <;> omega⟩

/-- The DB-level filter of the keys query:
`status in ('active', 'failed', 'rate_limited')`. -/
def usableKey (k : ApiKey) : Bool :=
  k.status = KeyStatus.active ∨ k.status = KeyStatus.failed ∨
    k.status = KeyStatus.rate_limited

/-- The usable credential list the endpoint works with: the filtered
keys, sorted stably by the JS comparator (`Array.prototype.sort` is
stable; modelled by insertion sort). -/
def listUsable (keysFromDb : List ApiKey) : List ApiKey :=
  List.insertionSort keyLEProp (keysFromDb.filter usableKey)

/-- Rank used to state what the comparator does with statuses: active
credentials rank before degraded ones. -/
def statusRank (s : KeyStatus) : Nat :=
  if s = KeyStatus.active then 0 else 1

/-- The ordering the claim asserts when read in the order of its words:
never-used first, then least-recently-used, with status preference only
as the final tiebreak. -/
def claimKeyLE (a b : ApiKey) : Bool :=
  match a.last_used, b.last_used with
  | none, none => decide (statusRank a.status ≤ statusRank b.status)
  | none, some _ => true
  | some _, none => false
  | some ta, some tb =>
      decide (ta < tb ∨ (ta = tb ∧ statusRank a.status ≤ statusRank b.status))

/-- One upstream reply to a job-status poll. -/
inductive PollResponse where
  | notOk
  | running
  | succeeded
  | failed
  deriving DecidableEq, Repr, Inhabited

/-- Error taxonomy of the Remote Job Client. -/
inductive ApifyError where
  | submissionError
  | jobTimeout
  | jobFailed
  | missingDataset
  | emptyDataset
  deriving DecidableEq, Repr, Inhabited

/-- How the status-poll `while` loop was left: terminal success break,
terminal failure throw, or loop-condition exhaustion; each records the
number of polls performed. -/
inductive StatusLoopExit where
  | success (attempts : Nat)
  | failure (attempts : Nat)
  | exhausted (attempts : Nat)
  deriving DecidableEq, Repr, Inhabited

/-- Number of polls recorded in a loop exit. -/
def exitAttempts : StatusLoopExit → Nat
  | StatusLoopExit.success a => a
  | StatusLoopExit.failure a => a
  | StatusLoopExit.exhausted a => a

/-- The status-poll `while` loop body: sleep, increment the attempt
counter, poll; a non-OK transport reply or a still-running status
continues the loop.  `fuel` is the number of loop iterations the
`attempts < maxAttempts` condition still allows. -/
def statusLoopAux (resp : Nat → PollResponse) (attempts : Nat) :
    Nat → StatusLoopExit
  | 0 => StatusLoopExit.exhausted attempts
  | fuel + 1 =>
      match resp (attempts + 1) with
      | PollResponse.succeeded => StatusLoopExit.success (attempts + 1)
      | PollResponse.failed => StatusLoopExit.failure (attempts + 1)
      | _ => statusLoopAux resp (attempts + 1) fuel

/-- The whole status-poll phase: the loop followed by the
`if (attempts >= maxAttempts) throw timeout` check; a FAILED status has
already thrown inside the loop.  On success it returns the number of
polls used. -/
def pollJobStatus (resp : Nat → PollResponse) (maxAttempts : Nat) :
    Except ApifyError Nat :=
  match statusLoopAux resp 0 maxAttempts with
  | StatusLoopExit.failure _ => Except.error ApifyError.jobFailed
  | StatusLoopExit.success a =>
      if maxAttempts ≤ a then Except.error ApifyError.jobTimeout else Except.ok a
  | StatusLoopExit.exhausted _ => Except.error ApifyError.jobTimeout

/-- One upstream reply to a dataset-items fetch: non-OK transport, or OK
with the returned item count. -/
inductive DatasetResponse where
  | notOk
  | ok (itemCount : Nat)
  deriving DecidableEq, Repr, Inhabited

/-- Item count observed by a dataset fetch, zero for a non-OK reply. -/
def datasetItemCount : DatasetResponse → Nat
  | DatasetResponse.notOk => 0
  | DatasetResponse.ok n => n

/-- The dataset-poll `while` loop: fetch, break on a non-empty
collection, otherwise sleep and retry; when the attempt bound is
exhausted every fetch was non-OK or empty and the endpoint throws the
empty-dataset error.  On success it returns the item count and the
number of fetches used. -/
def datasetLoopAux (resp : Nat → DatasetResponse) (attempts : Nat) :
    Nat → Except ApifyError (Nat × Nat)
  | 0 => Except.error ApifyError.emptyDataset
  | fuel + 1 =>
      match resp (attempts + 1) with
      | DatasetResponse.ok n =>
          if 0 < n then Except.ok (n, attempts + 1)
          else datasetLoopAux resp (attempts + 1) fuel
      | DatasetResponse.notOk => datasetLoopAux resp (attempts + 1) fuel

/-- The dataset-poll phase started from zero attempts. -/
def pollDataset (resp : Nat → DatasetResponse) (maxAttempts : Nat) :
    Except ApifyError (Nat × Nat) :=
  datasetLoopAux resp 0 maxAttempts

/-- Status-poll bound of the per-keyword client: `maxSerpAttempts = 60`. -/
def maxSerpAttempts : Nat := 60

/-- Dataset-poll bound of the per-keyword client: `maxDatasetAttempts = 60`. -/
def maxDatasetAttempts : Nat := 60

/-- Poll interval of every loop: `setTimeout(..., 5000)`. -/
def pollIntervalMs : Nat := 5000

/-- Settle delay of the per-keyword client before dataset polling:
`setTimeout(..., 20000)`. -/
def settleDelayMs : Nat := 20000

/-- Status-poll bound of the optimized batch Moz variant:
`maxMetricsRunAttempts = 30`. -/
def optMozMaxRunAttempts : Nat := 30

/-- Settle delay of the optimized batch Moz variant:
`setTimeout(..., 10000)`. -/
def optMozSettleDelayMs : Nat := 10000

/-- Terminal states of the audit row in `analysis_logs.status`. -/
inductive LogStatus where
  | pending
  | completed
  | failed
  deriving DecidableEq, Repr, Inhabited

/-- Externally visible side effects of the analyze endpoint, in program
order. -/
inductive Effect where
  | logInsert (status : LogStatus)
  | logUpdate (status : LogStatus)
  | keysQuery
  | remoteCall (keyword : String)
  | keyUpdate (keyId : Nat)
  deriving DecidableEq, Repr, Inhabited

/-- Recognizer for audit-row inserts in an effect trace. -/
def isLogInsert : Effect → Bool
  | Effect.logInsert _ => true
  | _ => false

/-- Recognizer for remote calls in an effect trace. -/
def isRemoteCall : Effect → Bool
  | Effect.remoteCall _ => true
  | _ => false

/-- Recognizer for credential updates in an effect trace. -/
def isKeyUpdate : Effect → Bool
  | Effect.keyUpdate _ => true
  | _ => false

/-- Status of the audit row after an effect trace is replayed
(last write wins); `none` when no row was ever inserted. -/
def finalLogStatus (effects : List Effect) : Option LogStatus :=
  effects.foldl
    (fun acc e =>
      match e with
      | Effect.logInsert s => some s
      | Effect.logUpdate s => some s
      | _ => acc)
    none

/-- The analyze request body, restricted to the fields the handler
reads.  `keywords = none` models a missing or non-array field. -/
structure ReqBody where
  keywords : Option (List String)
  cfg_x : Option Nat
  cfg_y : Option Nat
  cfg_z : Option ℚ
  deriving Repr, Inhabited

/-- What the handler produces: the HTTP status, the ordered side-effect
trace, and the per-keyword results of the response. -/
structure HandlerOutput where
  status : Nat
  effects : List Effect
  results : List PerKeywordResult
  deriving Repr, Inhabited

/-- The POST /api/analyze-serps handler (parallel variant): validate,
insert the pending audit row, query and sort credentials, fail fast
when none exist, otherwise fan out over the keywords in batches and
complete the audit row. -/
def analyzeHandler (body : ReqBody) (userKeys : List ApiKey)
    (oracle : Nat → Except String ApifySuccess) : HandlerOutput :=
  match body.keywords with
  | none => { status := 400, effects := [], results := [] }
  | some kws =>
      if kws.length = 0 then { status := 400, effects := [], results := [] }
      else if 30 < kws.length then { status := 400, effects := [], results := [] }
      else
        let x := effX body.cfg_x
        let y := effY body.cfg_y
        let z := effZ body.cfg_z
        let dbKeys := userKeys.filter usableKey
        if dbKeys.isEmpty then
          { status := 400
            effects := [Effect.logInsert LogStatus.pending, Effect.keysQuery,
              Effect.logUpdate LogStatus.failed]
            results := [] }
        else
          let sortedKeys := List.insertionSort keyLEProp dbKeys
          let results := processInBatches (processKeyword oracle sortedKeys x y z) 0 kws
          { status := 200
            effects := [Effect.logInsert LogStatus.pending, Effect.keysQuery] ++
              (mapWithIdxFrom
                (fun i kw => [Effect.remoteCall kw, Effect.keyUpdate (keyAt sortedKeys i).id])
                0 kws).flatten ++
              [Effect.logUpdate LogStatus.completed]
            results := results }

/-- Fixture: an active credential that has been used. -/
def keyActiveUsed : ApiKey :=
  { id := 1, key_name := "A", status := KeyStatus.active,
    last_used := some 5, last_failed := none, failure_count := 0 }

/-- Fixture: a degraded credential that has never been used. -/
def keyFailedNeverUsed : ApiKey :=
  { id := 2, key_name := "B", status := KeyStatus.failed,
    last_used := none, last_failed := none, failure_count := 0 }

/-- Fixture: a job whose status polls report running until the 40th
poll, which reports success. -/
def respSucceedsAt40 : Nat → PollResponse :=
  fun a => if a < 40 then PollResponse.running else PollResponse.succeeded

/-- Fixture: one merged entry with the given authority score. -/
def sampleEntry (da : ℚ) : CombinedEntry :=
  { position := 1, url := "https://site.example", title := "t",
    description := "d", domain_authority := da, page_authority := da,
    spam_score := 0 }

/-- Fixture: a successful remote outcome with one high-authority entry. -/
def sampleSuccess : ApifySuccess :=
  { results := [sampleEntry 50], serp_features := [] }

/-- Fixture: an oracle whose remote call fails (with a rate-limit
message) exactly for the keyword at index 1. -/
def oracleFailsAtOne : Nat → Except String ApifySuccess :=
  fun i =>
    if i = 1 then Except.error "Rate limit exceeded - API key may be out of credits"
    else Except.ok sampleSuccess

/-- Fixture: an oracle that always succeeds with an empty merged result
set. -/
def oracleEmptyResults : Nat → Except String ApifySuccess :=
  fun _ => Except.ok { results := [], serp_features := [] }

/-- Fixture: a job whose status polls report running until the 3rd
poll, which reports terminal failure. -/
def respFailsAt3 : Nat → PollResponse :=
  fun a => if a < 3 then PollResponse.running else PollResponse.failed

/-- Fixture: a dataset endpoint that never returns an OK reply. -/
def dsRespNeverOk : Nat → DatasetResponse :=
  fun _ => DatasetResponse.notOk

/-- Fixture: a SERP entry whose URL matches no metrics record. -/
def serpItemFixture : SerpItem :=
  { position := some 1, url := "https://a.example", title := "t",
    description := "d" }

/-- Fixture: a metrics record for a different domain string. -/
def mozRecordFixture : MozRecord :=
  { domain := "https://b.example", domain_authority := some 50,
    page_authority := some 40, spam_score := some 1 }

/-- Fixture: a request body with a missing (or non-array) keywords
field. -/
def bodyNoKeywords : ReqBody :=
  { keywords := none, cfg_x := none, cfg_y := none, cfg_z := none }

/-- Fixture: a request body with a single keyword and no configuration
overrides. -/
def bodySingleKeyword : ReqBody :=
  { keywords := some ["a"], cfg_x := none, cfg_y := none, cfg_z := none }

/-- Fixture: a request body with three keywords and no configuration
overrides. -/
def bodyThreeKeywords : ReqBody :=
  { keywords := some ["a", "b", "c"], cfg_x := none, cfg_y := none, cfg_z := none }

theorem length_mapWithIdxFrom {α β : Type} (f : Nat → α → β) :
    ∀ (l : List α) (s : Nat), (mapWithIdxFrom f s l).length = l.length := by
  intro l
  induction l with
  | nil => intro s; rfl
  | cons a rest ih => intro s; simp [mapWithIdxFrom, ih]

theorem getElem?_mapWithIdxFrom {α β : Type} (f : Nat → α → β) :
    ∀ (l : List α) (s i : Nat),
      (mapWithIdxFrom f s l)[i]? = (l[i]?).map (fun a => f (s + i) a) := by
  intro l
  induction l with
  | nil => intro s i; simp [mapWithIdxFrom]
  | cons a rest ih =>
      intro s i
      cases i with
      | zero => simp [mapWithIdxFrom]
      | succ j =>
          simp only [mapWithIdxFrom, List.getElem?_cons_succ, ih (s + 1) j]
          have h : s + 1 + j = s + (j + 1) := by omega
          rw [h]

theorem mapWithIdxFrom_append {α β : Type} (f : Nat → α → β) :
    ∀ (l1 l2 : List α) (s : Nat),
      mapWithIdxFrom f s (l1 ++ l2) =
        mapWithIdxFrom f s l1 ++ mapWithIdxFrom f (s + l1.length) l2 := by
  intro l1
  induction l1 with
  | nil => intro l2 s; simp [mapWithIdxFrom]
  | cons a rest ih =>
      intro l2 s
      have h : s + 1 + rest.length = s + (rest.length + 1) := by omega
      show f s a :: mapWithIdxFrom f (s + 1) (rest ++ l2) =
        f s a :: (mapWithIdxFrom f (s + 1) rest ++
          mapWithIdxFrom f (s + (rest.length + 1)) l2)
      rw [ih l2 (s + 1), h]

theorem processInBatches_cons (f : Nat → String → PerKeywordResult) (s : Nat)
    (kw : String) (rest : List String) :
    processInBatches f s (kw :: rest) =
      mapWithIdxFrom f s ((kw :: rest).take batchSize) ++
        processInBatches f (s + batchSize) ((kw :: rest).drop batchSize) := by
  rw [processInBatches]

theorem processInBatches_nil (f : Nat → String → PerKeywordResult) (s : Nat) :
    processInBatches f s [] = [] := by
  rw [processInBatches]

theorem processInBatches_eq (f : Nat → String → PerKeywordResult) :
    ∀ (n : Nat) (l : List String), l.length ≤ n →
      ∀ s, processInBatches f s l = mapWithIdxFrom f s l := by
  intro n
  induction n with
  | zero =>
      intro l hl s
      have h : l = [] := List.eq_nil_of_length_eq_zero (Nat.le_zero.mp hl)
      subst h
      rw [processInBatches_nil]
      rfl
  | succ n ih =>
      intro l hl s
      match l with
      | [] => rw [processInBatches_nil]; rfl
      | kw :: rest =>
          rw [processInBatches_cons]
          by_cases hd : (kw :: rest).length ≤ batchSize
          · have hdrop : (kw :: rest).drop batchSize = [] := List.drop_eq_nil_of_le hd
            have htake : (kw :: rest).take batchSize = kw :: rest :=
              List.take_of_length_le hd
            rw [hdrop, htake]
            simp [processInBatches]
          · have hlen : ((kw :: rest).take batchSize).length = batchSize := by
              rw [List.length_take]
              omega
            have hdlen : ((kw :: rest).drop batchSize).length ≤ n := by
              rw [List.length_drop]
              simp only [List.length_cons] at hl ⊢
              have hb : 1 ≤ batchSize := by decide
              omega
            rw [ih _ hdlen (s + batchSize)]
            have hsplit := List.take_append_drop batchSize (kw :: rest)
            calc mapWithIdxFrom f s ((kw :: rest).take batchSize) ++
                  mapWithIdxFrom f (s + batchSize) ((kw :: rest).drop batchSize)
                = mapWithIdxFrom f s ((kw :: rest).take batchSize) ++
                  mapWithIdxFrom f (s + ((kw :: rest).take batchSize).length)
                    ((kw :: rest).drop batchSize) := by rw [hlen]
              _ = mapWithIdxFrom f s ((kw :: rest).take batchSize ++
                    (kw :: rest).drop batchSize) := (mapWithIdxFrom_append f _ _ s).symm
              _ = mapWithIdxFrom f s (kw :: rest) := by rw [hsplit]

/-- Claim C1: for every merged result set and every decision
configuration, the computed decision is Write exactly when the count of
entries with authority score strictly below `z` is at least `x`, and
Skip otherwise; the average authority score plays no role (any two
result sets with the same low count decide identically), and the
configuration defaults are `{5, 10, 35}`. -/
theorem c1_decision_rule (entries : List ℚ) (x : Nat) (z : ℚ) :
    (decideWriteSkip entries x z = Decision.write ↔ x ≤ lowDACount entries z) ∧
    (decideWriteSkip entries x z = Decision.skip ↔ lowDACount entries z < x) ∧
    (∀ others : List ℚ, lowDACount others z = lowDACount entries z →
      decideWriteSkip others x z = decideWriteSkip entries x z) ∧
    effX none = 5 ∧ effY none = 10 ∧ effZ none = 35 := by
  refine ⟨?_, ?_, ?_, rfl, rfl, rfl⟩
  · unfold decideWriteSkip
    split <;> simp_all
  · unfold decideWriteSkip
    split <;> simp_all
  · intro others h
    unfold decideWriteSkip
    rw [h]

theorem c1_decision_rule_witness :
    decideWriteSkip [10, 20, 30, 40, 50, 60, 70, 80, 90, 100] 5 35 = Decision.skip ∧
    decideWriteSkip [5, 10, 15, 20, 25, 30, 40, 50, 60, 70] 5 35 = Decision.write := by
  constructor
  · exact (c1_decision_rule [10, 20, 30, 40, 50, 60, 70, 80, 90, 100] 5 35).2.1.mpr
      (by decide)
  · exact (c1_decision_rule [5, 10, 15, 20, 25, 30, 40, 50, 60, 70] 5 35).1.mpr
      (by decide)

/-- Claim C3: failure classification is a case-insensitive substring
match; a message containing a rate/credit/429/quota keyword maps to
rate_limited, every other message (including the invalid-key, 401,
unauthorized, 404 and actor-not-found messages) maps to failed, and
every classified failure increments failure_count by one and stamps
last_failed. -/
theorem c3_failure_classification (msg : String) (c : ApiKey) (t : Nat) :
    (classifyFailureStatus msg = KeyStatus.rate_limited ↔
      isRateLimitMessage msg = true) ∧
    (isRateLimitMessage msg = false → classifyFailureStatus msg = KeyStatus.failed) ∧
    ((isInvalidKeyMessage msg || isPermanentFailureMessage msg) = true →
      isRateLimitMessage msg = false → classifyFailureStatus msg = KeyStatus.failed) ∧
    (applyFailure c t msg).failure_count = c.failure_count + 1 ∧
    (applyFailure c t msg).last_failed = some t ∧
    (applyFailure c t msg).status = classifyFailureStatus msg := by
  refine ⟨?_, ?_, ?_, rfl, rfl, rfl⟩
  · unfold classifyFailureStatus
    rcases hr : isRateLimitMessage msg <;> simp [hr]
  · intro hr
    unfold classifyFailureStatus
    simp [hr]
  · intro _ hr
    unfold classifyFailureStatus
    simp [hr]

theorem c3_failure_classification_witness :
    classifyFailureStatus "Rate limit exceeded - API key may be out of credits" =
      KeyStatus.rate_limited ∧
    classifyFailureStatus "Invalid API key - please check your Apify API key" =
      KeyStatus.failed ∧
    classifyFailureStatus "some totally unclassified error" = KeyStatus.failed := by
  refine ⟨?_, ?_, ?_⟩
  · exact (c3_failure_classification
      "Rate limit exceeded - API key may be out of credits" keyActiveUsed 7).1.mpr
      (by decide)
  · exact (c3_failure_classification
      "Invalid API key - please check your Apify API key" keyActiveUsed 7).2.2.1
      (by decide) (by decide)
  · exact (c3_failure_classification
      "some totally unclassified error" keyActiveUsed 7).2.1 (by decide)

/-- Claim C4: a successful use sets status active, resets failure_count
to 0, stamps last_used and clears last_failed; in particular a
credential that failed with a rate-limit classification (status
rate_limited, failure_count incremented) and is then used successfully
returns to an active record with failure_count 0. -/
theorem c4_success_round_trip (c : ApiKey) (t1 t2 : Nat) (msg : String) :
    (applySuccess c t2).status = KeyStatus.active ∧
    (applySuccess c t2).failure_count = 0 ∧
    (applySuccess c t2).last_used = some t2 ∧
    (applySuccess c t2).last_failed = none ∧
    (isRateLimitMessage msg = true →
      (applyFailure c t1 msg).status = KeyStatus.rate_limited ∧
      (applyFailure c t1 msg).failure_count = c.failure_count + 1 ∧
      applySuccess (applyFailure c t1 msg) t2 =
        { id := c.id, key_name := c.key_name, status := KeyStatus.active,
          last_used := some t2, last_failed := none, failure_count := 0 }) := by
  refine ⟨rfl, rfl, rfl, rfl, ?_⟩
  intro hr
  refine ⟨?_, rfl, rfl⟩
  simp [applyFailure, classifyFailureStatus, hr]

theorem c4_success_round_trip_witness :
    (applyFailure keyActiveUsed 7
      "Rate limit exceeded - API key may be out of credits").status =
      KeyStatus.rate_limited ∧
    applySuccess (applyFailure keyActiveUsed 7
      "Rate limit exceeded - API key may be out of credits") 9 =
      { id := keyActiveUsed.id, key_name := keyActiveUsed.key_name,
        status := KeyStatus.active, last_used := some 9, last_failed := none,
        failure_count := 0 } := by
  have h := (c4_success_round_trip keyActiveUsed 7 9
    "Rate limit exceeded - API key may be out of credits").2.2.2.2 (by decide)
  exact ⟨h.1, h.2.2⟩

/-- Claim C5, counterexample: on the empty merged result set the code
computes `0/0`, so the stored average is NaN (modelled `none`) rather
than the claimed 0 — the division is not guarded; the decision is
nevertheless Skip. -/
theorem c5_empty_guard_counterexample :
    (processKeyword oracleEmptyResults [keyActiveUsed] 5 10 35 0 "kw").decision =
      Decision.skip ∧
    (processKeyword oracleEmptyResults [keyActiveUsed] 5 10 35 0 "kw").average_da =
      none ∧
    (processKeyword oracleEmptyResults [keyActiveUsed] 5 10 35 0 "kw").average_da ≠
      some 0 := by
  refine ⟨by decide, by decide, by decide⟩

/-- Claim C5, amended: on the empty merged result set the decision is
Skip (the effective `x` is always at least 1 after the JS `|| 5`
coercion) and the response-level average is 0 only because the final
response mapping `average_da || 0` masks the NaN; the mean computation
itself is unguarded and yields NaN (`none`). -/
theorem c5_empty_guard_amended (xo : Option Nat) (z : ℚ) :
    decideWriteSkip [] (effX xo) z = Decision.skip ∧
    averageDA [] = none ∧
    jsNumberOrZero (roundedAverageDA []) = 0 ∧
    1 ≤ effX xo := by
  have hx : 1 ≤ effX xo := by
    rcases xo with _ | n
    · decide
    · rcases n with _ | m
      · decide
      · show 1 ≤ if m + 1 = 0 then 5 else m + 1
        rw [if_neg (by omega)]
        omega
  refine ⟨?_, rfl, rfl, hx⟩
  have h1 : ¬ (effX xo ≤ lowDACount [] z) := by
    have h0 : lowDACount [] z = 0 := rfl
    omega
  unfold decideWriteSkip
  rw [if_neg h1]

theorem exitAttempts_statusLoopAux (resp : Nat → PollResponse) :
    ∀ (fuel attempts : Nat),
      exitAttempts (statusLoopAux resp attempts fuel) ≤ attempts + fuel := by
  intro fuel
  induction fuel with
  | zero => intro attempts; simp [statusLoopAux, exitAttempts]
  | succ n ih =>
      intro attempts
      cases h : resp (attempts + 1) with
      | succeeded => simp [statusLoopAux, h, exitAttempts]
      | failed => simp [statusLoopAux, h, exitAttempts]
      | notOk =>
          simp only [statusLoopAux, h]
          have := ih (attempts + 1)
          omega
      | running =>
          simp only [statusLoopAux, h]
          have := ih (attempts + 1)
          omega

theorem datasetLoopAux_ok_bound (resp : Nat → DatasetResponse) :
    ∀ (fuel attempts n f : Nat),
      datasetLoopAux resp attempts fuel = Except.ok (n, f) →
      0 < n ∧ f ≤ attempts + fuel := by
  intro fuel
  induction fuel with
  | zero => intro attempts n f h; simp [datasetLoopAux] at h
  | succ m ih =>
      intro attempts n f h
      cases hr : resp (attempts + 1) with
      | notOk =>
          simp only [datasetLoopAux, hr] at h
          have := ih (attempts + 1) n f h
          omega
      | ok k =>
          simp only [datasetLoopAux, hr] at h
          by_cases hk : 0 < k
          · rw [if_pos hk] at h
            have h1 : k = n ∧ attempts + 1 = f := by
              have := h
              simp at this
              exact ⟨this.1, this.2⟩
            obtain ⟨h2, h3⟩ := h1
            subst h2
            omega
          · rw [if_neg hk] at h
            have := ih (attempts + 1) n f h
            omega

theorem datasetLoopAux_exhausted (resp : Nat → DatasetResponse) :
    ∀ (fuel attempts : Nat),
      (∀ k, attempts < k → k ≤ attempts + fuel → datasetItemCount (resp k) = 0) →
      datasetLoopAux resp attempts fuel = Except.error ApifyError.emptyDataset := by
  intro fuel
  induction fuel with
  | zero => intro attempts _; rfl
  | succ m ih =>
      intro attempts hall
      have h1 : datasetItemCount (resp (attempts + 1)) = 0 :=
        hall (attempts + 1) (by omega) (by omega)
      cases hr : resp (attempts + 1) with
      | notOk =>
          simp only [datasetLoopAux, hr]
          exact ih (attempts + 1) (fun k hk1 hk2 => hall k (by omega) (by omega))
      | ok k =>
          have hk0 : k = 0 := by
            rw [hr] at h1
            simpa [datasetItemCount] using h1
          subst hk0
          simp only [datasetLoopAux, hr]
          rw [if_neg (by omega)]
          exact ih (attempts + 1) (fun k hk1 hk2 => hall k (by omega) (by omega))

/-- Claim C6, counterexample: the optimized batch Moz metrics polling
bounds status polls at 30 attempts (with a 10-second settle delay), not
60 (with 20 seconds): a job succeeding on its 40th status poll succeeds
under the per-keyword client's bound of 60 but is reported as a timeout
under the optimized variant's bound of 30. -/
theorem c6_polling_bounds_counterexample :
    pollJobStatus respSucceedsAt40 optMozMaxRunAttempts =
      Except.error ApifyError.jobTimeout ∧
    pollJobStatus respSucceedsAt40 maxSerpAttempts = Except.ok 40 ∧
    optMozMaxRunAttempts ≠ maxSerpAttempts ∧
    optMozSettleDelayMs ≠ settleDelayMs := by
  refine ⟨rfl, rfl, by decide, by decide⟩

/-- Claim C6, amended: the per-keyword Remote Job Client polls job
status on a 5-second interval at most 60 times, raising the failure
error when the upstream reports failure and the timeout error on
exhaustion; after the 20-second settle delay it polls the dataset at
most 60 times, raising the empty-dataset error when the bound is
exhausted without a non-empty collection.  The optimized batch Moz
metrics variant instead uses a bound of 30 status-poll attempts and a
10-second settle delay. -/
theorem c6_polling_bounds_amended :
    (∀ resp : Nat → PollResponse,
      exitAttempts (statusLoopAux resp 0 maxSerpAttempts) ≤ maxSerpAttempts) ∧
    (∀ (resp : Nat → PollResponse) (a : Nat),
      statusLoopAux resp 0 maxSerpAttempts = StatusLoopExit.failure a →
      pollJobStatus resp maxSerpAttempts = Except.error ApifyError.jobFailed) ∧
    (∀ (resp : Nat → PollResponse) (a : Nat),
      statusLoopAux resp 0 maxSerpAttempts = StatusLoopExit.exhausted a →
      pollJobStatus resp maxSerpAttempts = Except.error ApifyError.jobTimeout) ∧
    (∀ (resp : Nat → DatasetResponse) (n f : Nat),
      pollDataset resp maxDatasetAttempts = Except.ok (n, f) →
      0 < n ∧ f ≤ maxDatasetAttempts) ∧
    (∀ resp : Nat → DatasetResponse,
      (∀ k, 1 ≤ k → k ≤ maxDatasetAttempts → datasetItemCount (resp k) = 0) →
      pollDataset resp maxDatasetAttempts = Except.error ApifyError.emptyDataset) ∧
    (maxSerpAttempts = 60 ∧ maxDatasetAttempts = 60 ∧ pollIntervalMs = 5000 ∧
      settleDelayMs = 20000) ∧
    (optMozMaxRunAttempts = 30 ∧ optMozSettleDelayMs = 10000) := by
  refine ⟨?_, ?_, ?_, ?_, ?_, ⟨rfl, rfl, rfl, rfl⟩, ⟨rfl, rfl⟩⟩
  · intro resp
    have := exitAttempts_statusLoopAux resp maxSerpAttempts 0
    omega
  · intro resp a h
    unfold pollJobStatus
    rw [h]
  · intro resp a h
    unfold pollJobStatus
    rw [h]
  · intro resp n f h
    exact datasetLoopAux_ok_bound resp maxDatasetAttempts 0 n f h
  · intro resp hall
    exact datasetLoopAux_exhausted resp maxDatasetAttempts 0
      (fun k hk1 hk2 => hall k (by omega) (by omega))

theorem c6_polling_bounds_amended_witness :
    pollJobStatus respFailsAt3 maxSerpAttempts = Except.error ApifyError.jobFailed ∧
    pollDataset dsRespNeverOk maxDatasetAttempts =
      Except.error ApifyError.emptyDataset := by
  have h := c6_polling_bounds_amended
  exact ⟨h.2.1 respFailsAt3 3 (by decide),
    h.2.2.2.2.1 dsRespNeverOk (fun k h1 h2 => rfl)⟩

/-- Claim C10: a SERP entry whose URL is exactly string-equal to no
metrics record's domain field is merged with domain_authority,
page_authority and spam_score all 0; consequently it lies strictly
below every positive authority threshold and forces the low-authority
count of its result set to be at least 1. -/
theorem c10_unmatched_metrics_zero (serp : List SerpItem) (metrics : List MozRecord)
    (i : Nat) (item : SerpItem) (hitem : serp[i]? = some item)
    (hnomatch : ∀ m ∈ metrics, ¬ (m.domain = item.url)) :
    ∃ entry, (combineResults serp metrics)[i]? = some entry ∧
      entry.domain_authority = 0 ∧ entry.page_authority = 0 ∧
      entry.spam_score = 0 ∧
      (∀ z : ℚ, 0 < z → entry.domain_authority < z) ∧
      (∀ z : ℚ, 0 < z →
        1 ≤ lowDACount
          ((combineResults serp metrics).map (fun e => e.domain_authority)) z) := by
  have hfind : lookupMetrics metrics item.url = none := by
    unfold lookupMetrics
    rw [List.find?_eq_none]
    intro m hm
    simp only [decide_eq_true_eq]
    exact hnomatch m hm
  have hcomb : (combineResults serp metrics)[i]? =
      some (combineOne metrics (0 + i) item) := by
    unfold combineResults
    rw [getElem?_mapWithIdxFrom, hitem]
    rfl
  have hda : (combineOne metrics (0 + i) item).domain_authority = 0 := by
    simp [combineOne, hfind, jsFieldOrZero]
  have hpa : (combineOne metrics (0 + i) item).page_authority = 0 := by
    simp [combineOne, hfind, jsFieldOrZero]
  have hss : (combineOne metrics (0 + i) item).spam_score = 0 := by
    simp [combineOne, hfind, jsFieldOrZero]
  refine ⟨combineOne metrics (0 + i) item, hcomb, hda, hpa, hss,
    fun z hz => by rw [hda]; exact hz, fun z hz => ?_⟩
  have hmem : (0 : ℚ) ∈ (combineResults serp metrics).map
      (fun e => e.domain_authority) := by
    rw [List.mem_map]
    exact ⟨_, List.getElem?_mem hcomb, hda⟩
  have hfil : (0 : ℚ) ∈ ((combineResults serp metrics).map
      (fun e => e.domain_authority)).filter (fun da => decide (da < z)) := by
    rw [List.mem_filter]
    exact ⟨hmem, by simpa using hz⟩
  unfold lowDACount
  have := List.length_pos.mpr (List.ne_nil_of_mem hfil)
  omega

theorem c10_unmatched_metrics_zero_witness :
    ∃ entry, (combineResults [serpItemFixture] [mozRecordFixture])[0]? = some entry ∧
      entry.domain_authority = 0 ∧ entry.domain_authority < 35 := by
  obtain ⟨entry, h1, h2, _, _, h5, _⟩ :=
    c10_unmatched_metrics_zero [serpItemFixture] [mozRecordFixture] 0 serpItemFixture
      (by decide) (by decide)
  exact ⟨entry, h1, h2, h5 35 (by norm_num)⟩

theorem analyzeHandler_keywords_none (body : ReqBody) (userKeys : List ApiKey)
    (oracle : Nat → Except String ApifySuccess) (h : body.keywords = none) :
    analyzeHandler body userKeys oracle =
      { status := 400, effects := [], results := [] } := by
  unfold analyzeHandler
  rw [h]

theorem analyzeHandler_empty_list (body : ReqBody) (userKeys : List ApiKey)
    (oracle : Nat → Except String ApifySuccess) (kws : List String)
    (h : body.keywords = some kws) (h0 : kws.length = 0) :
    analyzeHandler body userKeys oracle =
      { status := 400, effects := [], results := [] } := by
  simp [analyzeHandler, h, h0]

theorem analyzeHandler_oversized (body : ReqBody) (userKeys : List ApiKey)
    (oracle : Nat → Except String ApifySuccess) (kws : List String)
    (h : body.keywords = some kws) (h31 : 30 < kws.length) :
    analyzeHandler body userKeys oracle =
      { status := 400, effects := [], results := [] } := by
  have h0 : ¬ (kws.length = 0) := by omega
  simp [analyzeHandler, h, h0, h31]

theorem analyzeHandler_no_keys (body : ReqBody) (userKeys : List ApiKey)
    (oracle : Nat → Except String ApifySuccess) (kws : List String)
    (h : body.keywords = some kws) (h1 : kws.length ≠ 0) (h2 : kws.length ≤ 30)
    (hempty : userKeys.filter usableKey = []) :
    analyzeHandler body userKeys oracle =
      { status := 400
        effects := [Effect.logInsert LogStatus.pending, Effect.keysQuery,
          Effect.logUpdate LogStatus.failed]
        results := [] } := by
  have h30 : ¬ (30 < kws.length) := by omega
  simp [analyzeHandler, h, h1, h30, hempty]

theorem analyzeHandler_ok (body : ReqBody) (userKeys : List ApiKey)
    (oracle : Nat → Except String ApifySuccess) (kws : List String)
    (h : body.keywords = some kws) (h1 : kws.length ≠ 0) (h2 : kws.length ≤ 30)
    (hne : (userKeys.filter usableKey).isEmpty = false) :
    analyzeHandler body userKeys oracle =
      { status := 200
        effects := [Effect.logInsert LogStatus.pending, Effect.keysQuery] ++
          (mapWithIdxFrom
            (fun i kw => [Effect.remoteCall kw,
              Effect.keyUpdate
                (keyAt (List.insertionSort keyLEProp (userKeys.filter usableKey)) i).id])
            0 kws).flatten ++
          [Effect.logUpdate LogStatus.completed]
        results := processInBatches
          (processKeyword oracle
            (List.insertionSort keyLEProp (userKeys.filter usableKey))
            (effX body.cfg_x) (effY body.cfg_y) (effZ body.cfg_z)) 0 kws } := by
  have h30 : ¬ (30 < kws.length) := by omega
  simp [analyzeHandler, h, h1, h30, hne]

/-- Claim C7: a request whose keywords field is missing, not an array,
empty, or longer than 30 entries is answered 400 before any side
effect: no audit row, no credential query or update, no remote call. -/
theorem c7_validation_fails_fast (body : ReqBody) (userKeys : List ApiKey)
    (oracle : Nat → Except String ApifySuccess)
    (hbad : body.keywords = none ∨
      ∃ kws, body.keywords = some kws ∧ (kws.length = 0 ∨ 30 < kws.length)) :
    (analyzeHandler body userKeys oracle).status = 400 ∧
    (analyzeHandler body userKeys oracle).effects = [] := by
  rcases hbad with h | ⟨kws, h, hlen⟩
  · rw [analyzeHandler_keywords_none body userKeys oracle h]
    exact ⟨rfl, rfl⟩
  · rcases hlen with h0 | h31
    · rw [analyzeHandler_empty_list body userKeys oracle kws h h0]
      exact ⟨rfl, rfl⟩
    · rw [analyzeHandler_oversized body userKeys oracle kws h h31]
      exact ⟨rfl, rfl⟩

theorem c7_validation_fails_fast_witness :
    (analyzeHandler bodyNoKeywords [keyActiveUsed] oracleFailsAtOne).status = 400 ∧
    (analyzeHandler bodyNoKeywords [keyActiveUsed] oracleFailsAtOne).effects = [] :=
  c7_validation_fails_fast bodyNoKeywords [keyActiveUsed] oracleFailsAtOne
    (Or.inl rfl)

/-- Claim C8: when the user has zero usable credentials, the batch
aborts with a 400 before any remote call or credential update, exactly
one audit row is inserted, and that row ends in terminal status
failed. -/
theorem c8_no_credentials (body : ReqBody) (userKeys : List ApiKey)
    (oracle : Nat → Except String ApifySuccess) (kws : List String)
    (hkw : body.keywords = some kws) (h1 : kws.length ≠ 0) (h2 : kws.length ≤ 30)
    (hempty : userKeys.filter usableKey = []) :
    (analyzeHandler body userKeys oracle).status = 400 ∧
    ((analyzeHandler body userKeys oracle).effects.filter isLogInsert).length = 1 ∧
    finalLogStatus (analyzeHandler body userKeys oracle).effects =
      some LogStatus.failed ∧
    (∀ e ∈ (analyzeHandler body userKeys oracle).effects,
      isRemoteCall e = false ∧ isKeyUpdate e = false) := by
  rw [analyzeHandler_no_keys body userKeys oracle kws hkw h1 h2 hempty]
  refine ⟨rfl, rfl, rfl, ?_⟩
  intro e he
  simp only [List.mem_cons, List.not_mem_nil, or_false] at he
  rcases he with rfl | rfl | rfl <;> exact ⟨rfl, rfl⟩

theorem c8_no_credentials_witness :
    (analyzeHandler bodySingleKeyword [] oracleFailsAtOne).status = 400 ∧
    finalLogStatus (analyzeHandler bodySingleKeyword [] oracleFailsAtOne).effects =
      some LogStatus.failed := by
  have h := c8_no_credentials bodySingleKeyword [] oracleFailsAtOne ["a"] rfl
    (by decide) (by decide) rfl
  exact ⟨h.1, h.2.2.1⟩

theorem processKeyword_keyword (oracle : Nat → Except String ApifySuccess)
    (keys : List ApiKey) (x y : Nat) (z : ℚ) (i : Nat) (kw : String) :
    (processKeyword oracle keys x y z i kw).keyword = kw := by
  cases h : oracle i <;> simp [processKeyword, h]

theorem processKeyword_error_iff (oracle : Nat → Except String ApifySuccess)
    (keys : List ApiKey) (x y : Nat) (z : ℚ) (i : Nat) (kw : String) :
    (processKeyword oracle keys x y z i kw).decision = Decision.error ↔
      ∃ msg, oracle i = Except.error msg := by
  cases h : oracle i with
  | ok s =>
      simp only [processKeyword, h]
      constructor
      · intro hd
        exfalso
        revert hd
        unfold decideWriteSkip
        split <;> simp
      · intro ⟨msg, hmsg⟩
        simp at hmsg
  | error msg =>
      simp [processKeyword, h]

theorem processKeyword_on_error (oracle : Nat → Except String ApifySuccess)
    (keys : List ApiKey) (x y : Nat) (z : ℚ) (i : Nat) (kw : String) (msg : String)
    (h : oracle i = Except.error msg) :
    (processKeyword oracle keys x y z i kw).api_key_used = none ∧
    (processKeyword oracle keys x y z i kw).error = some msg := by
  simp [processKeyword, h]

theorem processKeyword_on_ok (oracle : Nat → Except String ApifySuccess)
    (keys : List ApiKey) (x y : Nat) (z : ℚ) (i : Nat) (kw : String)
    (s : ApifySuccess) (h : oracle i = Except.ok s) :
    (processKeyword oracle keys x y z i kw).api_key_used =
      some (keyAt keys i).key_name ∧
    (processKeyword oracle keys x y z i kw).decision ≠ Decision.error := by
  refine ⟨by simp [processKeyword, h], ?_⟩
  simp only [processKeyword, h]
  unfold decideWriteSkip
  split <;> simp

/-- Claim C2: an accepted batch of n keywords yields exactly n
per-keyword results collected positionally in input order; a keyword
whose remote call fails yields an entry with decision Error and a null
credential while the remaining keywords are processed normally with
their assigned credential, and the decision is Error exactly when the
keyword's remote call failed. -/
theorem c2_batch_order_and_partial_failure (body : ReqBody) (userKeys : List ApiKey)
    (oracle : Nat → Except String ApifySuccess) (kws : List String)
    (hkw : body.keywords = some kws) (h1 : kws.length ≠ 0) (h2 : kws.length ≤ 30)
    (hkeys : userKeys.filter usableKey ≠ []) :
    (analyzeHandler body userKeys oracle).status = 200 ∧
    (analyzeHandler body userKeys oracle).results.length = kws.length ∧
    (∀ i, i < kws.length →
      ∃ r, (analyzeHandler body userKeys oracle).results[i]? = some r ∧
        kws[i]? = some r.keyword ∧
        (r.decision = Decision.error ↔ ∃ msg, oracle i = Except.error msg) ∧
        (∀ msg, oracle i = Except.error msg →
          r.api_key_used = none ∧ r.error = some msg) ∧
        (∀ s, oracle i = Except.ok s →
          r.api_key_used = some (keyAt
            (List.insertionSort keyLEProp (userKeys.filter usableKey)) i).key_name ∧
          r.decision ≠ Decision.error)) := by
  have hne : (userKeys.filter usableKey).isEmpty = false := by
    rcases hfe : userKeys.filter usableKey with _ | ⟨a, t⟩
    · exact absurd hfe hkeys
    · rfl
  have hok := analyzeHandler_ok body userKeys oracle kws hkw h1 h2 hne
  have hstatus : (analyzeHandler body userKeys oracle).status = 200 := by
    rw [hok]
  have hres : (analyzeHandler body userKeys oracle).results =
      processInBatches
        (processKeyword oracle
          (List.insertionSort keyLEProp (userKeys.filter usableKey))
          (effX body.cfg_x) (effY body.cfg_y) (effZ body.cfg_z)) 0 kws := by
    rw [hok]
  refine ⟨hstatus, ?_, ?_⟩
  · rw [hres, processInBatches_eq _ kws.length kws (le_refl _) 0,
      length_mapWithIdxFrom]
  · intro i hi
    obtain ⟨w, hw⟩ : ∃ w, kws[i]? = some w := by
      rw [List.getElem?_eq_getElem hi]
      exact ⟨_, rfl⟩
    refine ⟨processKeyword oracle
      (List.insertionSort keyLEProp (userKeys.filter usableKey))
      (effX body.cfg_x) (effY body.cfg_y) (effZ body.cfg_z) i w, ?_, ?_, ?_, ?_, ?_⟩
    · rw [hres, processInBatches_eq _ kws.length kws (le_refl _) 0,
        getElem?_mapWithIdxFrom, hw]
      simp
    · rw [processKeyword_keyword]
      exact hw
    · exact processKeyword_error_iff oracle _ _ _ _ i w
    · intro msg hmsg
      exact processKeyword_on_error oracle _ _ _ _ i w msg hmsg
    · intro s hs
      exact processKeyword_on_ok oracle _ _ _ _ i w s hs

theorem c2_batch_order_and_partial_failure_witness :
    (analyzeHandler bodyThreeKeywords [keyActiveUsed] oracleFailsAtOne).status = 200 ∧
    (analyzeHandler bodyThreeKeywords [keyActiveUsed] oracleFailsAtOne).results.length
      = 3 ∧
    ∃ r, (analyzeHandler bodyThreeKeywords [keyActiveUsed]
        oracleFailsAtOne).results[1]? = some r ∧
      r.keyword = "b" ∧ r.decision = Decision.error ∧ r.api_key_used = none := by
  have h := c2_batch_order_and_partial_failure bodyThreeKeywords [keyActiveUsed]
    oracleFailsAtOne ["a", "b", "c"] rfl (by decide) (by decide) (by decide)
  obtain ⟨r, hr1, hr2, hr3, hr4, hr5⟩ := h.2.2 1 (by decide)
  have herr := hr4 "Rate limit exceeded - API key may be out of credits" rfl
  have hkwb : r.keyword = "b" := by
    have : some "b" = some r.keyword := hr2
    exact (Option.some.injEq _ _ ▸ this).symm
  exact ⟨h.1, h.2.1, r, hr1, hkwb, hr3.mpr ⟨_, rfl⟩, herr.1⟩

/-- Claim C9, counterexample: the sorted usable list puts an active,
previously-used credential before a degraded never-used one, because
the comparator's primary criterion is active-status preference; so the
claimed ordering (never-used credentials first) fails. -/
theorem c9_list_usable_counterexample :
    listUsable [keyActiveUsed, keyFailedNeverUsed] =
      [keyActiveUsed, keyFailedNeverUsed] ∧
    keyActiveUsed.last_used ≠ none ∧
    keyFailedNeverUsed.last_used = none ∧
    ¬ List.Pairwise (fun a b => claimKeyLE a b = true)
        (listUsable [keyActiveUsed, keyFailedNeverUsed]) := by
  refine ⟨by decide, by decide, rfl, ?_⟩
  intro hp
  rw [show listUsable [keyActiveUsed, keyFailedNeverUsed] =
    [keyActiveUsed, keyFailedNeverUsed] by decide] at hp
  have h := (List.pairwise_cons.mp hp).1 keyFailedNeverUsed (by simp)
  exact absurd h (by decide)

/-- Claim C9, amended: the usable credential list contains exactly the
credentials with status in {active, failed, rate_limited} and is sorted
by the comparator whose primary criterion is active-status preference,
then never-used first, then least-recently-used — status preference is
the primary sort key, not the final refinement. -/
theorem c9_list_usable_amended (ks : List ApiKey) :
    (∀ k, k ∈ listUsable ks ↔ k ∈ ks ∧ usableKey k = true) ∧
    List.Pairwise keyLEProp (listUsable ks) ∧
    (∀ a b : ApiKey, keyLEProp a b ↔
      (statusRank a.status < statusRank b.status ∨
        (statusRank a.status = statusRank b.status ∧
          (a.last_used = none ∨
            ∃ ta tb, a.last_used = some ta ∧ b.last_used = some tb ∧ ta ≤ tb)))) := by
  refine ⟨?_, ?_, ?_⟩
  · intro k
    unfold listUsable
    rw [(List.perm_insertionSort keyLEProp (ks.filter usableKey)).mem_iff,
      List.mem_filter]
  · exact List.sorted_insertionSort keyLEProp (ks.filter usableKey)
  · intro a b
    obtain ⟨ia, na, sa, lua, lfa, fa⟩ := a
    obtain ⟨ib, nb, sb, lub, lfb, fb⟩ := b
    unfold keyLEProp keyCmp statusRank
    rcases sa <;> rcases sb <;> rcases lua with _ | ta <;> rcases lub with _ | tb <;>
      simp

theorem c9_list_usable_amended_witness :
    keyActiveUsed ∈ listUsable [keyActiveUsed, keyFailedNeverUsed] ∧
    keyLEProp keyActiveUsed keyFailedNeverUsed := by
  have h := c9_list_usable_amended [keyActiveUsed, keyFailedNeverUsed]
  refine ⟨(h.1 keyActiveUsed).mpr ⟨by decide, by decide⟩, ?_⟩
  exact (h.2.2 keyActiveUsed keyFailedNeverUsed).mpr (Or.inl (by decide))
